import Mathlib

/-!
Verification of the affine-cli core against its natural-language specification.

The development shallowly embeds the parts of the TypeScript source that the
claims are about:

* the CRDT document builder (`src/yjs.ts`): a Yjs document is modelled as an
  insertion-ordered association list from block id to `Block`; `Y.Map.set`
  becomes `setB` (overwrite-in-place, append-if-new, matching JS `Map`
  semantics), and encoding/decoding a binary update is the identity on this
  block map (the spec's "idempotent read" property: decode is deterministic
  and faithful);
* the realtime operations `createDoc` / `appendText` / `deleteDocRealtime`
  with a transport modelled as a pure function from emit calls to
  acknowledgement values, and an explicit trace of emits and closes;
* the HTTP request engine (`src/http.ts`): retry loop, status classification
  and the error taxonomy;
* the MCP JSON-RPC client (`src/mcp.ts`): SSE `data:` line scanning and
  JSON-RPC error unwrapping, with the JS builtin `JSON.parse` abstracted as a
  parameter (it is an external platform facility);
* the keyword search resolver (`src/search.ts`) with its external
  collaborators (GraphQL search, tool list, tool call, doc listings, document
  reads) supplied as a record of behaviours, and a trace of which
  collaborators were invoked;
* the credential redaction helper (`src/credentials.ts`).

JavaScript dynamic values (realtime acks, JSON-RPC envelopes) are modelled by
the inductive `JVal`, with JS truthiness, property lookup and string coercion
translated explicitly.
-/

namespace Affine

/-! ## JavaScript value model -/

/-- A JavaScript/JSON value as it appears in acks and JSON-RPC envelopes.
`undef` is JavaScript `undefined`, distinct from `null`.  Numbers are
modelled as integers (no claim exercises non-integer numbers). -/
inductive JVal where
  | undef : JVal
  | jnull : JVal
  | jbool : Bool → JVal
  | jnum : Int → JVal
  | jstr : String → JVal
  | jarr : List JVal → JVal
  | jobj : List (String × JVal) → JVal

/-- JavaScript truthiness of a value (`if (x)`). -/
def truthy : JVal → Bool
  | .undef => false
  | .jnull => false
  | .jbool b => b
  | .jnum n => !(n == 0)
  | .jstr s => !(s == "")
  | .jarr _ => true
  | .jobj _ => true

/-- `typeof x === 'object'` for a non-null value: objects and arrays. -/
def isObjLike : JVal → Bool
  | .jarr _ => true
  | .jobj _ => true
  | _ => false

/-- Property lookup in an object's field list (first binding wins, as in a
JS object literal with distinct keys). `none` models `undefined`. -/
def jlookup (fs : List (String × JVal)) (k : String) : Option JVal :=
  (fs.find? (fun p => p.1 == k)).map (·.2)

/-- Property access `v[k]` on an arbitrary value; non-objects (and arrays,
whose numeric indices we do not model) yield `undefined`. -/
def jget (v : JVal) (k : String) : Option JVal :=
  match v with
  | .jobj fs => jlookup fs k
  | _ => none

/-- The `in` operator: does the object carry the key at all? -/
def jHasKey (v : JVal) (k : String) : Bool :=
  match v with
  | .jobj fs => fs.any (fun p => p.1 == k)
  | _ => false

/-- JS `String(x)` for primitive values (the only uses in the source apply it
to non-object values). -/
def jsToString : JVal → String
  | .undef => "undefined"
  | .jnull => "null"
  | .jbool b => cond b "true" "false"
  | .jnum n => toString n
  | .jstr s => s
  | .jarr _ => ""
  | .jobj _ => "[object Object]"

/-- Escape a string for JSON output (quotes and backslashes; no claim
exercises control-character escapes). -/
def jsonEscape (s : String) : String :=
  String.mk (s.data.foldr
    (fun c acc =>
      if c = '"' then '\\' :: '"' :: acc
      else if c = '\\' then '\\' :: '\\' :: acc
      else c :: acc) [])

mutual

/-- `JSON.stringify` over the value model (insertion-ordered object keys,
as in V8). `undef` never reaches this function in the modelled code paths. -/
def jstringify : JVal → String
  | .undef => "null"
  | .jnull => "null"
  | .jbool b => cond b "true" "false"
  | .jnum n => toString n
  | .jstr s => "\"" ++ jsonEscape s ++ "\""
  | .jarr xs => "[" ++ jstringifyList xs ++ "]"
  | .jobj fs => "\x7b" ++ jstringifyFields fs ++ "\x7d"

def jstringifyList : List JVal → String
  | [] => ""
  | [x] => jstringify x
  | x :: xs => jstringify x ++ "," ++ jstringifyList xs

def jstringifyFields : List (String × JVal) → String
  | [] => ""
  | [(k, v)] => "\"" ++ jsonEscape k ++ "\":" ++ jstringify v
  | (k, v) :: fs =>
      "\"" ++ jsonEscape k ++ "\":" ++ jstringify v ++ "," ++ jstringifyFields fs

end

/-! ## CRDT block model (src/yjs.ts)

A Yjs space document's `blocks` map is an insertion-ordered map from block id
to a block value.  Rich text (`Y.Text`) fields are modelled by their string
content; `Y.Array` children by a list of ids. -/

/-- One BlockSuite block as stored in the `blocks` Y.Map.  Optional fields are
absent (`none`) when the source does not set them. -/
structure Block where
  sysId : String
  flavour : String
  version : Nat
  children : List String
  title : Option String := none
  xywh : Option String := none
  ptype : Option String := none
  collapsed : Option Bool := none
  text : Option String := none
deriving DecidableEq, Repr

/-- The `blocks` map: insertion-ordered association list. -/
abbrev Store := List (String × Block)

/-- `Y.Map.set`: overwrite in place if the key exists, else append. -/
def setB (m : Store) (k : String) (v : Block) : Store :=
  if m.any (fun p => p.1 == k) then
    m.map (fun p => if p.1 == k then (k, v) else p)
  else m ++ [(k, v)]

/-- `Y.Map.get`. -/
def getB (m : Store) (k : String) : Option Block :=
  (m.find? (fun p => p.1 == k)).map (·.2)

/-- JS truthiness of an optional string argument (`if (title)`,
`content ? _ : _`): present and non-empty. -/
def truthyStr : Option String → Bool
  | none => false
  | some s => !(s == "")

/-- `buildInitialPageUpdate(title, content)` from src/yjs.ts (lines 80–119):
the block map encoded by the returned binary update.  The freshly-allocated
random ids are passed explicitly (`createDoc`'s inline copy of this scaffold
uses the deterministic ids `page:<docId>` / `note:<docId>`). -/
def buildInitialPageUpdate (title content : Option String)
    (pageId noteId paraId : String) : Store :=
  let hasPara := truthyStr content
  let page : Block :=
    { sysId := pageId, flavour := "affine:page", version := 2
      children := [noteId]
      title := if truthyStr title then some (title.getD "") else none }
  let note : Block :=
    { sysId := noteId, flavour := "affine:note", version := 1
      children := if hasPara then [paraId] else []
      xywh := some "[0,0,600,400]" }
  let s1 := setB [] pageId page
  let s2 := setB s1 noteId note
  if hasPara then
    let para : Block :=
      { sysId := paraId, flavour := "affine:paragraph", version := 1
        children := []
        ptype := some "text", collapsed := some false
        text := some (content.getD "") }
    setB s2 paraId para
  else s2

/-! ### Claim C1: tree shape of the initial page update -/

/-- **C1.** For every title and content, the block map decoded from
`buildInitialPageUpdate(title, content)` has exactly one block of flavour
`affine:page`; its children sequence is exactly `[noteId]`; the note block has
flavour `affine:note`; and iff `content` is a non-empty string the note's
children are exactly `[paraId]` where the paragraph block has flavour
`affine:paragraph` and `prop:text` equal to `content` verbatim, while for
absent or empty `content` the note has no children.  The freshly-allocated
ids are pairwise distinct. -/
theorem c1_initial_tree_shape (title content : Option String)
    (pageId noteId paraId : String)
    (hpn : pageId ≠ noteId) (hpp : paraId ≠ pageId) (hnp : paraId ≠ noteId) :
    (((buildInitialPageUpdate title content pageId noteId paraId).filter
        (fun p => p.2.flavour == "affine:page")).map (·.1) = [pageId]) ∧
    ((getB (buildInitialPageUpdate title content pageId noteId paraId)
        pageId).map Block.children = some [noteId]) ∧
    ((getB (buildInitialPageUpdate title content pageId noteId paraId)
        noteId).map Block.flavour = some "affine:note") ∧
    (truthyStr content = true →
      (getB (buildInitialPageUpdate title content pageId noteId paraId)
          noteId).map Block.children = some [paraId] ∧
      (getB (buildInitialPageUpdate title content pageId noteId paraId)
          paraId).map Block.flavour = some "affine:paragraph" ∧
      (getB (buildInitialPageUpdate title content pageId noteId paraId)
          paraId).map Block.text = some (some (content.getD ""))) ∧
    (truthyStr content = false →
      (getB (buildInitialPageUpdate title content pageId noteId paraId)
          noteId).map Block.children = some []) := by
  have hnp' : noteId ≠ pageId := fun h => hpn h.symm
  have hpp' : pageId ≠ paraId := fun h => hpp h.symm
  have hnp2 : noteId ≠ paraId := fun h => hnp h.symm
  have b1 : (pageId == noteId) = false := by simp [hpn]
  have b2 : (noteId == pageId) = false := by simp [hnp']
  have b3 : (pageId == paraId) = false := by simp [hpp']
  have b4 : (paraId == pageId) = false := by simp [hpp]
  have b5 : (noteId == paraId) = false := by simp [hnp2]
  have b6 : (paraId == noteId) = false := by simp [hnp]
  cases hc : truthyStr content <;>
    simp [buildInitialPageUpdate, setB, getB, hc, hpn, hnp', hpp, hnp, hpp', hnp2,
      b1, b2, b3, b4, b5, b6, List.find?, List.filter]

/-- Witness for C1 at concrete inputs: title "T", content "hello", distinct
ids. -/
theorem c1_initial_tree_shape_witness :
    ("pg" ≠ "nt" ∧ "pa" ≠ "pg" ∧ "pa" ≠ "nt") ∧
    (getB (buildInitialPageUpdate (some "T") (some "hello") "pg" "nt" "pa")
        "nt").map Block.children = some ["pa"] ∧
    (getB (buildInitialPageUpdate (some "T") (some "hello") "pg" "nt" "pa")
        "pa").map Block.text = some (some "hello") :=
  ⟨by decide,
   ((c1_initial_tree_shape (some "T") (some "hello") "pg" "nt" "pa"
      (by decide) (by decide) (by decide)).2.2.2.1 rfl).1,
   ((c1_initial_tree_shape (some "T") (some "hello") "pg" "nt" "pa"
      (by decide) (by decide) (by decide)).2.2.2.1 rfl).2.2⟩

/-! ## Credential redaction (src/credentials.ts) -/

/-- JS `mask.repeat(n)`. -/
def maskRepeat (mask : String) : Nat → String
  | 0 => ""
  | n + 1 => mask ++ maskRepeat mask n

/-- JS `str.slice(-n)`; `slice(-0)` is `slice(0)`, the whole string. -/
def strSliceNeg (s : String) (n : Nat) : String :=
  if n = 0 then s else String.mk (s.data.drop (s.data.length - n))

/-- `redactValue(value, opts)` from src/credentials.ts (lines 16–25).
`value` is `none` for `null`/`undefined` (`String(value)` is the identity on
strings).  With the default options, `pfx = 4`, `sfx = 2`, `mask = "*"`. -/
def redactValue (value : Option String) (pfx sfx : Nat) (mask : String) : String :=
  let str := value.getD ""
  if str.length = 0 then ""
  else if str.length ≤ pfx + sfx then maskRepeat mask str.length
  else
    String.mk (str.data.take pfx) ++
      maskRepeat mask (str.length - pfx - sfx) ++ strSliceNeg str sfx

theorem maskRepeat_star_data (n : Nat) :
    (maskRepeat "*" n).data = List.replicate n '*' := by
  induction n with
  | zero => rfl
  | succ n ih =>
      show ("*" ++ maskRepeat "*" n).data = _
      rw [String.data_append, ih]
      rfl

/-! ### Claim C10: default redaction shape -/

/-- **C10.** With the default options (prefix 4, suffix 2, mask `*`),
`redactValue` yields: the empty string on `null`/`undefined`/empty input; a
same-length all-mask string when the input length is at most 6; and otherwise
the 4-character head, a run of `*` over the whole middle, and the 2-character
tail — so the output has the input's length and every character at a middle
position (from 4 up to length−2 exclusive) is `*`, never a character of the
secret. -/
theorem c10_redact_default_shape (value : Option String) :
    ((value.getD "").length = 0 → redactValue value 4 2 "*" = "") ∧
    (0 < (value.getD "").length → (value.getD "").length ≤ 6 →
      (redactValue value 4 2 "*").data =
        List.replicate (value.getD "").length '*') ∧
    (6 < (value.getD "").length →
      (redactValue value 4 2 "*").data =
        (value.getD "").data.take 4 ++
          List.replicate ((value.getD "").length - 6) '*' ++
          (value.getD "").data.drop ((value.getD "").length - 2) ∧
      (redactValue value 4 2 "*").length = (value.getD "").length ∧
      (∀ i, 4 ≤ i → i + 2 < (value.getD "").length →
        (redactValue value 4 2 "*").data[i]? = some '*')) := by
  set s := value.getD "" with hs
  refine ⟨?_, ?_, ?_⟩
  · intro h0
    simp [redactValue, ← hs, h0]
  · intro hpos hle
    have h0 : ¬ s.length = 0 := Nat.pos_iff_ne_zero.mp hpos
    simp [redactValue, ← hs, h0, hle, maskRepeat_star_data]
  · intro hgt
    have h0 : ¬ s.length = 0 := by omega
    have hle : ¬ s.length ≤ 4 + 2 := by omega
    have h6 : s.length - 4 - 2 = s.length - 6 := by omega
    have h2 : ¬ (2 : Nat) = 0 := by omega
    have hdata :
        (redactValue value 4 2 "*").data =
          s.data.take 4 ++ List.replicate (s.length - 6) '*' ++
            s.data.drop (s.length - 2) := by
      unfold redactValue
      simp only [← hs, if_neg h0, if_neg hle, String.data_append,
        maskRepeat_star_data, h6, strSliceNeg, if_neg h2]
      rfl
    have hlen : s.data.length = s.length := rfl
    refine ⟨hdata, ?_, ?_⟩
    · show (redactValue value 4 2 "*").data.length = s.length
      rw [hdata]
      simp [List.length_take, List.length_drop, hlen]
      omega
    · intro i h4 hi
      rw [hdata]
      have hta : (s.data.take 4).length = 4 := by
        simp [List.length_take, hlen]; omega
      have hab : (s.data.take 4 ++ List.replicate (s.length - 6) '*').length =
          s.length - 2 := by
        simp [List.length_append, hta]; omega
      rw [List.getElem?_append_left (by omega : i <
            (s.data.take 4 ++ List.replicate (s.length - 6) '*').length),
          List.getElem?_append_right (by omega : (s.data.take 4).length ≤ i),
          List.getElem?_replicate]
      rw [hta]
      have : i - 4 < s.length - 6 := by omega
      simp [this]

/-- Witness for C10 at the concrete secret "secrettoken99" (length 13): the
character at middle position 5 of the redacted output is the mask. -/
theorem c10_redact_default_shape_witness :
    6 < ((some "secrettoken99" : Option String).getD "").length ∧
    (redactValue (some "secrettoken99") 4 2 "*").data[5]? = some '*' :=
  ⟨by decide,
   ((c10_redact_default_shape (some "secrettoken99")).2.2 (by decide)).2.2 5
     (by decide) (by decide)⟩

/-! ## HTTP request engine (src/http.ts)

One HTTP exchange attempt either yields a response (status plus whether the
2xx JSON body parse fails) or throws a raw error carrying an optional
platform code and optional `statusCode`.  The retry loop, the status-based
retry predicate and the error taxonomy are translated from `request`
(lines 194–327). -/

structure HttpResp where
  status : Nat
deriving DecidableEq, Repr

/-- The `HttpError` hierarchy, flattened: `name` distinguishes the class. -/
structure HttpErr where
  name : String
  msg : String
  status : Option Nat
  code : Option String
  attempt : Nat
  retryable : Bool
deriving DecidableEq, Repr

/-- `defaultRetryOnStatus` (src/http.ts lines 190–192). -/
def defaultRetryOnStatus (status : Nat) : Bool :=
  status == 408 || status == 429 || (decide (500 ≤ status) && decide (status < 600))

/-- `new ResponseError(...)`. -/
def respErr (status attempt : Nat) (retryable : Bool) (msg : String) : HttpErr :=
  { name := "ResponseError", msg := msg, status := some status, code := none
    attempt := attempt, retryable := retryable }

/-- `new TimeoutError(...)`: code is pinned to `ETIMEDOUT`, retryable. -/
def timeoutErr (attempt : Nat) : HttpErr :=
  { name := "TimeoutError", msg := "Request timed out", status := none
    code := some "ETIMEDOUT", attempt := attempt, retryable := true }

/-- `new NetworkError(...)` as constructed at line 312: retryable true,
underlying message and platform code preserved. -/
def networkErr (msg : String) (code : Option String) (attempt : Nat) : HttpErr :=
  { name := "NetworkError", msg := msg, status := none, code := code
    attempt := attempt, retryable := true }

/-- What one attempt against the backend produces. -/
inductive AttemptResult where
  | response (status : Nat) (parseFails : Bool)
  | thrown (code : Option String) (statusCode : Option Nat) (msg : String)

/-- The undici/platform timeout codes recognised at line 301. -/
def isTimeoutCode (code : Option String) : Bool :=
  code == some "UND_ERR_HEADERS_TIMEOUT" || code == some "UND_ERR_BODY_TIMEOUT" ||
    code == some "ETIMEDOUT"

/-- Error classification in the catch block (lines 297–316) for a raw
(non-`HttpError`) thrown value. -/
def classifyCaught (retryOn : Nat → Bool) (attempt : Nat)
    (code : Option String) (statusCode : Option Nat) (msg : String) : HttpErr :=
  if isTimeoutCode code then timeoutErr attempt
  else
    match statusCode with
    | some s => respErr s attempt (retryOn s) ("HTTP " ++ toString s)
    | none => networkErr msg code attempt

/-- Outcome of handling one attempt: return the response, abort with an
error, or fall through to the backoff and the next attempt. -/
inductive StepOut where
  | done (r : HttpResp)
  | fail (e : HttpErr)
  | retry (e : HttpErr)
deriving Repr

/-- One iteration of the retry loop body (lines 219–317): 2xx returns (or a
parse failure aborts); a non-2xx is retried exactly when `retryOn status` and
the attempt is not the final one; thrown errors are classified and retried
when retryable and not final. -/
def attemptOnce (retryOn : Nat → Bool) (isFinal : Bool) (attempt : Nat) :
    AttemptResult → StepOut
  | .response status parseFails =>
    if 200 ≤ status ∧ status < 300 then
      if parseFails then
        .fail (respErr status attempt false "Failed to parse JSON response")
      else .done ⟨status⟩
    else
      let e := respErr status attempt (retryOn status) ("HTTP " ++ toString status)
      if !e.retryable || isFinal then .fail e else .retry e
  | .thrown code statusCode msg =>
      let w := classifyCaught retryOn attempt code statusCode msg
      if !w.retryable || isFinal then .fail w else .retry w

/-- The attempt loop; `fuel` is the number of attempts still allowed.  The
fuel-exhausted base case is the defensive `HttpError('Request failed')` at
line 326 (unreachable when at least one attempt runs). -/
def runAttempts (retryOn : Nat → Bool) (backend : Nat → AttemptResult)
    (ma : Nat) : Nat → Nat → Except HttpErr HttpResp
  | _, 0 =>
    .error { name := "HttpError", msg := "Request failed", status := none
             code := none, attempt := Nat.max 1 ma, retryable := false }
  | attempt, fuel + 1 =>
      match attemptOnce retryOn (fuel == 0) attempt (backend attempt) with
      | .done r => .ok r
      | .fail e => .error e
      | .retry _ => runAttempts retryOn backend ma (attempt + 1) fuel

/-- `request(opts)` restricted to the retry-relevant inputs: optional
`maxAttempts` (default 3, clamped to at least 1) and optional `retryOnStatus`
(default `defaultRetryOnStatus`); backoff sleeps do not affect the result. -/
def requestM (maxAttempts : Option Nat) (retryOn : Option (Nat → Bool))
    (backend : Nat → AttemptResult) : Except HttpErr HttpResp :=
  let ma := Nat.max 1 (maxAttempts.getD 3)
  runAttempts (retryOn.getD defaultRetryOnStatus) backend ma 1 ma

/-- Simulated backend for the spec's retry-boundary scenario: 503 on
attempts 1 and 2, success (200) on attempt 3. -/
def backend503 : Nat → AttemptResult :=
  fun a => if a ≤ 2 then .response 503 false else .response 200 false

/-! ### Claim C3: retry boundary -/

/-- **C3.** A non-2xx status is retried iff it is 408, 429 or in [500,600)
and the attempt is not the last allowed one; with `maxAttempts = 3` against a
backend answering 503, 503, 200, `request` returns the 200 response, and with
`maxAttempts = 2` it fails with a `ResponseError` that is retryable with
status 503. -/
theorem c3_retry_boundary :
    (∀ status : Nat, defaultRetryOnStatus status = true ↔
      (status = 408 ∨ status = 429 ∨ (500 ≤ status ∧ status < 600))) ∧
    (∀ (status attempt : Nat) (isFinal : Bool), ¬(200 ≤ status ∧ status < 300) →
      ((∃ e, attemptOnce defaultRetryOnStatus isFinal attempt
          (.response status false) = .retry e) ↔
        (defaultRetryOnStatus status = true ∧ isFinal = false))) ∧
    (requestM (some 3) none backend503 = .ok ⟨200⟩) ∧
    (requestM (some 2) none backend503 = .error (respErr 503 2 true "HTTP 503") ∧
      (respErr 503 2 true "HTTP 503").name = "ResponseError" ∧
      (respErr 503 2 true "HTTP 503").retryable = true ∧
      (respErr 503 2 true "HTTP 503").status = some 503) := by
  refine ⟨?_, ?_, ?_, ?_⟩
  · intro status
    simp [defaultRetryOnStatus, or_assoc]
  · intro status attempt isFinal h2
    rw [attemptOnce, if_neg h2]
    cases hr : defaultRetryOnStatus status <;> cases isFinal <;>
      simp [respErr, hr]
  · rfl
  · exact ⟨rfl, rfl, rfl, rfl⟩

/-- Witness for C3 at status 503, attempt 1, not final. -/
theorem c3_retry_boundary_witness :
    ¬(200 ≤ 503 ∧ 503 < 300) ∧
    ((∃ e, attemptOnce defaultRetryOnStatus false 1
        (.response 503 false) = .retry e) ↔
      (defaultRetryOnStatus 503 = true ∧ false = false)) :=
  ⟨by decide, c3_retry_boundary.2.1 503 1 false (by decide)⟩

/-! ### Claim C6: timeout classification -/

theorem runAttempts_timeout (backend : Nat → AttemptResult) (ma : Nat)
    (h : ∀ a, ∃ code msg, backend a = .thrown (some code) none msg ∧
        isTimeoutCode (some code) = true) :
    ∀ fuel attempt, 1 ≤ fuel →
      runAttempts defaultRetryOnStatus backend ma attempt fuel =
        .error (timeoutErr (attempt + fuel - 1)) := by
  intro fuel
  induction fuel with
  | zero => omega
  | succ n ih =>
      intro attempt _
      obtain ⟨code, msg, hb, ht⟩ := h attempt
      rw [runAttempts, hb]
      cases n with
      | zero =>
          simp [attemptOnce, classifyCaught, ht, timeoutErr]
      | succ m =>
          have : attemptOnce defaultRetryOnStatus ((m + 1 : Nat) == 0) attempt
              (.thrown (some code) none msg) =
              .retry (timeoutErr attempt) := by
            simp [attemptOnce, classifyCaught, ht, timeoutErr]
          rw [this]
          rw [ih (attempt + 1) (by omega)]
          have harith : attempt + 1 + (m + 1) - 1 = attempt + (m + 1 + 1) - 1 := by
            omega
          rw [harith]

/-- **C6.** When every attempt's deadline is exceeded before headers or body
arrive (an undici timeout code is thrown), `request` raises a `TimeoutError`
that is retryable with the stable code `ETIMEDOUT` — not a generic
`NetworkError`. -/
theorem c6_timeout_classification (backend : Nat → AttemptResult)
    (maxAttempts : Option Nat)
    (h : ∀ a, ∃ code msg, backend a = .thrown (some code) none msg ∧
        isTimeoutCode (some code) = true) :
    ∃ e, requestM maxAttempts none backend = .error e ∧
      e.name = "TimeoutError" ∧ e.retryable = true ∧
      e.code = some "ETIMEDOUT" ∧ e.name ≠ "NetworkError" := by
  have hrun := runAttempts_timeout backend (Nat.max 1 (maxAttempts.getD 3)) h
      (Nat.max 1 (maxAttempts.getD 3)) 1 (Nat.le_max_left 1 _)
  exact ⟨timeoutErr (1 + Nat.max 1 (maxAttempts.getD 3) - 1), hrun, rfl, rfl, rfl,
    by simp [timeoutErr]⟩

/-- Simulated always-timing-out backend. -/
def backendTimeout : Nat → AttemptResult :=
  fun _ => .thrown (some "UND_ERR_HEADERS_TIMEOUT") none "headers timeout"

/-- Witness for C6 with a backend that times out on every attempt and
`maxAttempts = 2`. -/
theorem c6_timeout_classification_witness :
    ∃ e, requestM (some 2) none backendTimeout = .error e ∧
      e.name = "TimeoutError" ∧ e.retryable = true ∧
      e.code = some "ETIMEDOUT" ∧ e.name ≠ "NetworkError" :=
  c6_timeout_classification backendTimeout (some 2)
    (fun _ => ⟨"UND_ERR_HEADERS_TIMEOUT", "headers timeout", rfl, rfl⟩)

/-! ## MCP JSON-RPC client (src/mcp.ts)

The HTTP exchange itself goes through the engine above with
`responseType: 'text'`; here we model the decoding of a successful response:
SSE `data:` line scanning (`parseSsePayload`), JSON-RPC envelope unwrapping
(`unwrapRpc`) and their composition in `rpc` (lines 112–127).  The JS builtin
`JSON.parse` is an external platform facility and is abstracted as the
parameter `jp`. -/

/-- Split a character sequence on `/\r?\n/` (each `\r\n` or bare `\n` ends a
line; a `\r` not followed by `\n` stays in the line). -/
def splitLinesChars : List Char → List (List Char)
  | [] => [[]]
  | '\r' :: '\n' :: rest => [] :: splitLinesChars rest
  | '\n' :: rest => [] :: splitLinesChars rest
  | c :: rest =>
      match splitLinesChars rest with
      | [] => [[c]]
      | l :: ls => (c :: l) :: ls

/-- `text.split(/\r?\n/)`. -/
def splitLines (text : String) : List String :=
  (splitLinesChars text.data).map String.mk

/-- Whitespace trimming from both ends (`String.prototype.trim`; the
whitespace classes exercised here are space, tab, CR, LF). -/
def trimChars (cs : List Char) : List Char :=
  ((cs.dropWhile Char.isWhitespace).reverse.dropWhile Char.isWhitespace).reverse

/-- `line.startsWith('data:') ? line.slice(5).trim() : undefined`. -/
def dataPayload (line : String) : Option String :=
  match line.data with
  | 'd' :: 'a' :: 't' :: 'a' :: ':' :: rest => some (String.mk (trimChars rest))
  | _ => none

/-- Parse attempt for one line of the SSE body: `none` unless the line starts
with `data:` and its trimmed payload is non-empty and parses. -/
def dataLineParse (jp : String → Option JVal) (line : String) : Option JVal :=
  match dataPayload line with
  | none => none
  | some json => if json == "" then none else jp json

/-- The loop body of `parseSsePayload`: keep the previous value unless this
line parses. -/
def sseStep (jp : String → Option JVal) (last : Option JVal) (line : String) :
    Option JVal :=
  match dataPayload line with
  | none => last
  | some json =>
      if json == "" then last
      else
        match jp json with
        | some v => some v
        | none => last

/-- `parseSsePayload` (src/mcp.ts lines 67–82): last successfully-parsed JSON
object among the `data:` lines. -/
def parseSsePayload (jp : String → Option JVal) (text : String) : Option JVal :=
  (splitLines text).foldl (sseStep jp) none

/-- The successfully parsed `data:` payloads, in order. -/
def dataLineResults (jp : String → Option JVal) (text : String) : List JVal :=
  (splitLines text).filterMap (dataLineParse jp)

/-- Message selection for a JSON-RPC error: `payload.error.message || 'MCP
error'` coerced by the `Error` constructor. -/
def errMsgOf (e : JVal) : String :=
  match jget e "message" with
  | some m => if truthy m then jsToString m else "MCP error"
  | none => "MCP error"

/-- Failure modes of `rpc`: a JSON-RPC level error (code/message/data from
the envelope's `error` field) or the generic JSON parse failure. -/
inductive RpcFail where
  | rpcError (code : Option JVal) (message : String) (data : Option JVal)
  | parseFail

/-- `'result' in payload ? payload.result : payload`. -/
def unwrapResult (fs : List (String × JVal)) (payload : JVal) :
    Except RpcFail JVal :=
  match jlookup fs "result" with
  | some r => .ok r
  | none => .ok payload

/-- `unwrapRpc` (src/mcp.ts lines 84–95): a present *and truthy* `error`
field raises a JSON-RPC error carrying the error's `code`, `message` (with
the `'MCP error'` fallback) and `data`; otherwise the `result` field is
returned when present, else the payload itself.  Non-objects pass through. -/
def unwrapRpc (payload : JVal) : Except RpcFail JVal :=
  match payload with
  | .jobj fs =>
      match jlookup fs "error" with
      | some e =>
          if truthy e then
            .error (.rpcError (jget e "code") (errMsgOf e) (jget e "data"))
          else unwrapResult fs payload
      | none => unwrapResult fs payload
  | other => .ok other

/-- Is `need` a prefix of `hay` (character-wise)? -/
def charsMatchAt : List Char → List Char → Bool
  | [], _ => true
  | _ :: _, [] => false
  | n :: ns, h :: hs => n == h && charsMatchAt ns hs

/-- JS `hay.indexOf(need)` over character lists. -/
def findSub : List Char → List Char → Option Nat
  | [], need => if charsMatchAt need [] then some 0 else none
  | h :: hs, need =>
      if charsMatchAt need (h :: hs) then some 0
      else (findSub hs need).map (· + 1)

/-- JS `hay.includes(need)`. -/
def strIncludes (hay need : String) : Bool :=
  (findSub hay.data need.data).isSome

/-- JS `hay.indexOf(need)` on strings (`none` for −1). -/
def strIndexOf (hay need : String) : Option Nat :=
  findSub hay.data need.data

/-- `String.prototype.toLowerCase` (ASCII case mapping suffices for the
content types exercised). -/
def strToLower (s : String) : String :=
  String.mk (s.data.map Char.toLower)

/-- `isEventStream` (src/mcp.ts lines 62–65). -/
def isEventStream (contentType : String) : Bool :=
  strIncludes (strToLower contentType) "text/event-stream"

/-- The response-decoding tail of `rpc` (src/mcp.ts lines 112–127) applied to
a successful HTTP response with the given content type and textual body. -/
def rpcDecode (jp : String → Option JVal) (contentType body : String) :
    Except RpcFail JVal :=
  if isEventStream contentType then
    match parseSsePayload jp body with
    | some payload => unwrapRpc payload
    | none => unwrapRpc .undef
  else
    match jp body with
    | some payload => unwrapRpc payload
    | none => .error .parseFail

theorem sseStep_eq (jp : String → Option JVal) (last : Option JVal)
    (line : String) :
    sseStep jp last line =
      match dataLineParse jp line with
      | some v => some v
      | none => last := by
  unfold sseStep dataLineParse
  cases hp : dataPayload line with
  | none => rfl
  | some json =>
      by_cases h2 : (json == "") = true <;> simp [h2]

theorem foldl_sseStep (jp : String → Option JVal) :
    ∀ (l : List String) (init : Option JVal),
      l.foldl (sseStep jp) init =
        ((l.filterMap (dataLineParse jp)).getLast?).elim init some := by
  intro l
  induction l with
  | nil => intro init; rfl
  | cons a l ih =>
      intro init
      rw [List.foldl_cons, ih, sseStep_eq]
      cases hda : dataLineParse jp a with
      | none => simp [List.filterMap_cons, hda]
      | some v =>
          simp only [List.filterMap_cons, hda]
          cases hfl : l.filterMap (dataLineParse jp) with
          | nil => simp
          | cons b bs =>
              rw [List.getLast?_cons_cons]
              cases hg : (b :: bs).getLast? with
              | none => simp at hg
              | some w => simp

/-! ### Claim C7: SSE scanning and JSON-RPC error surfacing -/

/-- Envelope carrying an `error` key whose value is `null` (present but
falsy), alongside a `result`. -/
def envC7 : JVal := .jobj [("error", .jnull), ("result", .jnum 7)]

def jpC7 : String → Option JVal :=
  fun s => if s == "ENV" then some envC7 else none

/-- **C7 counterexample.** The decoded envelope carries an `error` field
(`{error: null, result: 7}`), yet `callTool` does not reject: it returns the
`result`.  The truthiness guard `'error' in payload && payload.error` skips
falsy error values. -/
theorem c7_counterexample :
    jHasKey envC7 "error" = true ∧
    rpcDecode jpC7 "text/event-stream" "data: ENV" = .ok (.jnum 7) :=
  ⟨rfl, rfl⟩

/-- **C7 (amended).** The client keeps the last successfully-parsed JSON
object among the `data:` lines (malformed and earlier chunks are ignored);
if the decoded envelope carries a *truthy* `error` field, `callTool` rejects
with an error exposing the error's `code` and its `message` (not a generic
parse or transport error); absent a truthy `error` field it returns the
`result` field (when present). -/
theorem c7_sse_rpc_error_surfacing :
    (∀ (jp : String → Option JVal) (text : String),
      parseSsePayload jp text = (dataLineResults jp text).getLast?) ∧
    (∀ (jp : String → Option JVal) (ct body : String) (fs : List (String × JVal))
        (e : JVal),
      isEventStream ct = true →
      parseSsePayload jp body = some (.jobj fs) →
      jlookup fs "error" = some e → truthy e = true →
      rpcDecode jp ct body =
        .error (.rpcError (jget e "code") (errMsgOf e) (jget e "data"))) ∧
    (∀ (jp : String → Option JVal) (ct body : String) (fs : List (String × JVal))
        (r : JVal),
      isEventStream ct = true →
      parseSsePayload jp body = some (.jobj fs) →
      (∀ e, jlookup fs "error" = some e → truthy e = false) →
      jlookup fs "result" = some r →
      rpcDecode jp ct body = .ok r) := by
  refine ⟨?_, ?_, ?_⟩
  · intro jp text
    rw [parseSsePayload, foldl_sseStep, dataLineResults]
    cases (List.filterMap (dataLineParse jp) (splitLines text)).getLast? <;> rfl
  · intro jp ct body fs e hsse hparse herr htruthy
    simp [rpcDecode, hsse, hparse, unwrapRpc, herr, htruthy]
  · intro jp ct body fs r hsse hparse herr hres
    cases he : jlookup fs "error" with
    | none => simp [rpcDecode, hsse, hparse, unwrapRpc, he, unwrapResult, hres]
    | some e =>
        simp [rpcDecode, hsse, hparse, unwrapRpc, he, herr e he, unwrapResult, hres]

/-- The spec's concrete scenario for C7: the only `data:` line encodes
`{error:{code:-32601,message:"tool X not found"}}` (preceded by a malformed
chunk, which must be ignored). -/
def envC7err : JVal :=
  .jobj [("error", .jobj [("code", .jnum (-32601)),
                          ("message", .jstr "tool X not found")])]

def jpC7err : String → Option JVal :=
  fun s => if s == "FINAL" then some envC7err else none

/-- Witness for C7: the SSE body has one malformed chunk and one proper
envelope; `callTool` rejects with code −32601 and message
"tool X not found". -/
theorem c7_sse_rpc_error_surfacing_witness :
    isEventStream "text/event-stream" = true ∧
    rpcDecode jpC7err "text/event-stream" "data: oops\ndata: FINAL" =
      .error (.rpcError (some (.jnum (-32601))) "tool X not found" none) :=
  ⟨rfl,
   c7_sse_rpc_error_surfacing.2.1 jpC7err "text/event-stream"
     "data: oops\ndata: FINAL"
     [("error", .jobj [("code", .jnum (-32601)),
                       ("message", .jstr "tool X not found")])]
     (.jobj [("code", .jnum (-32601)), ("message", .jstr "tool X not found")])
     rfl rfl rfl rfl⟩

/-! ## Realtime transport and sync operations (src/yjs.ts)

A transport emit is modelled as a pure behaviour `RtBeh` mapping each emit
call (event plus the payload parts the code inspects) to either a thrown
error or an acknowledgement value.  Each operation returns its result
together with a trace of transport actions (emits in order, then the final
`close` when the operation owns the transport).  The Yjs internals of the
workspace-root metadata document (base64 decode, `applyUpdate`, meta map
manipulation, lines 268–294) are abstracted as the parameter `metaBuild`
(they may throw, return nothing to push, or return an update to push);
likewise `decodeSnap` abstracts base64-decoding and replaying a pulled
snapshot into a block store (`none` models an empty buffer). -/

/-- One emit on the realtime socket, with the payload parts the model
tracks. -/
inductive RtEmit where
  | joinWs
  | loadDoc (docId : String)
  | pushDoc (docId : String) (update : Store)
  | delDoc (docId : String)

/-- One observable transport action. -/
inductive RtCall where
  | emit (e : RtEmit)
  | close

def isClose : RtCall → Bool
  | .close => true
  | .emit _ => false

/-- Transport behaviour: each emit either throws (`error`) or resolves with
an acknowledgement value. -/
abbrev RtBeh := RtEmit → Except String JVal

/-- `extractRealtimeError` (src/yjs.ts lines 217–231): non-objects and falsy
`error` values yield no message; a string error is itself the message; an
object error contributes its string `message` field or its JSON
serialization; other truthy values are `String(...)`-coerced. -/
def extractRealtimeError (ack : JVal) : Option String :=
  if !(truthy ack && isObjLike ack) then none
  else
    match jget ack "error" with
    | none => none
    | some raw =>
      if !truthy raw then none
      else
        match raw with
        | .jstr s => some s
        | .jobj fs =>
            match jlookup fs "message" with
            | some (.jstr m) => some m
            | _ => some (jstringify raw)
        | .jarr xs => some (jstringify (.jarr xs))
        | other => some (jsToString other)

/-- `ensureAckOk` (src/yjs.ts lines 233–239); note `if (!msg) return` also
accepts an extracted empty-string message. -/
def ensureAckOk (ack : JVal) (op : String) : Except String Unit :=
  match extractRealtimeError ack with
  | none => .ok ()
  | some msg =>
      if msg == "" then .ok ()
      else .error ("realtime " ++ op ++ " failed: " ++ msg)

/-- `(res as any)?.accepted !== false`. -/
def acceptedOf (ack : JVal) : Bool :=
  match jget ack "accepted" with
  | some (.jbool false) => false
  | _ => true

/-- The `try { body } finally { if (needClose) await transport.close() }`
pattern shared by the three operations: the body's emits, then a `close`
exactly when the transport was not caller-supplied, on success and failure
alike. -/
def withOwnedClose {α : Type} (callerSupplied : Bool)
    (body : Except String α × List RtEmit) : Except String α × List RtCall :=
  (body.1, body.2.map RtCall.emit ++ (if callerSupplied then [] else [.close]))

/-- `appendDocMetaToWorkspaceRoot` (src/yjs.ts lines 241–304).  Every path
returns; load failures, error-marked or snapshot-less responses, decode
failures and push failures are all swallowed; the meta push's ack is not
inspected. -/
def appendDocMetaM (beh : RtBeh)
    (metaBuild : String → Except String (Option Store)) (wsId : String) :
    List RtEmit :=
  match beh (.loadDoc wsId) with
  | .error _ => [.loadDoc wsId]
  | .ok res =>
    if !(truthy res && isObjLike res) || jHasKey res "error" then [.loadDoc wsId]
    else
      let m := (jget res "missing").getD .undef
      let st := (jget res "state").getD .undef
      let snap := if truthy m then m else st
      if !truthy snap then [.loadDoc wsId]
      else
        match snap with
        | .jstr s =>
            match metaBuild s with
            | .ok (some u) => [.loadDoc wsId, .pushDoc wsId u]
            | _ => [.loadDoc wsId]
        | _ => [.loadDoc wsId]

/-- `createDoc` (src/yjs.ts lines 311–372): join, push the initial scaffold
(built with the deterministic ids `page:<docId>` / `note:<docId>`), check the
push ack, best-effort catalog append, return the doc id. -/
def createDocM (beh : RtBeh) (callerSupplied : Bool)
    (wsId docId paraId : String) (title content : Option String)
    (metaBuild : String → Except String (Option Store)) :
    Except String String × List RtCall :=
  withOwnedClose callerSupplied
    (match beh .joinWs with
     | .error e => (.error e, [.joinWs])
     | .ok _ =>
       let u := buildInitialPageUpdate title content
         ("page:" ++ docId) ("note:" ++ docId) paraId
       match beh (.pushDoc docId u) with
       | .error e => (.error e, [.joinWs, .pushDoc docId u])
       | .ok ack =>
         match ensureAckOk ack "space:push-doc-update" with
         | .error e => (.error e, [.joinWs, .pushDoc docId u])
         | .ok _ =>
             (.ok docId,
              [.joinWs, .pushDoc docId u] ++ appendDocMetaM beh metaBuild wsId))

/-- Snapshot extraction in `appendText` (lines 402–407):
`typeof pulled?.missing === 'string' ? missing : typeof pulled?.state ===
'string' ? state : undefined`. -/
def extractSnap (pulled : JVal) : Option String :=
  match jget pulled "missing" with
  | some (.jstr s) => some s
  | _ =>
      match jget pulled "state" with
      | some (.jstr s) => some s
      | _ => none

/-- Note lookup over a pulled store (lines 421–431): the last block of
flavour `affine:page` in iteration order, then its first child of flavour
`affine:note`. -/
def findNotePulled (st : Store) : Option String :=
  let pid := st.foldl
    (fun acc p => if p.2.flavour == "affine:page" then some p.1 else acc) none
  match pid with
  | none => none
  | some p =>
    match getB st p with
    | none => none
    | some pageB =>
        pageB.children.find? (fun cid =>
          match getB st cid with
          | some b => b.flavour == "affine:note"
          | none => false)

/-- A minimal stub note block (lines 448–455). -/
def stubNote (noteId : String) : Block :=
  { sysId := noteId, flavour := "affine:note", version := 1, children := [] }

/-- The new paragraph block (lines 437–445). -/
def paraBlock (paraId text : String) : Block :=
  { sysId := paraId, flavour := "affine:paragraph", version := 1
    children := [], ptype := some "text", collapsed := some false
    text := some text }

/-- The `Y.transact` body of `appendText` (lines 436–459): insert the new
paragraph, insert a stub note when the note id is absent from the local
state, and push the paragraph id onto the note's children. -/
def appendTextBuild (st : Store) (noteId paraId text : String) : Store :=
  let s1 := setB st paraId (paraBlock paraId text)
  let s2 := if (getB s1 noteId).isNone then setB s1 noteId (stubNote noteId) else s1
  match getB s2 noteId with
  | some n => setB s2 noteId { n with children := n.children ++ [paraId] }
  | none => s2

/-- `appendText` (src/yjs.ts lines 379–474): join; bounded-time pull (a
timeout is a rejection of the pull, hence the `.error` case); degraded mode
(pull failed, no usable snapshot, or empty buffer) starts from an empty
local store and the deterministic note id `note:<docId>`; otherwise the note
is located under the pulled page; the transaction result is pushed and the
ack checked. -/
def appendTextM (beh : RtBeh) (callerSupplied : Bool)
    (docId text paraId : String) (decodeSnap : String → Option Store) :
    Except String Bool × List RtCall :=
  withOwnedClose callerSupplied
    (match beh .joinWs with
     | .error e => (.error e, [.joinWs])
     | .ok _ =>
       let pullRes := beh (.loadDoc docId)
       let st : Store :=
         match pullRes with
         | .error _ => []
         | .ok pulled =>
           match extractSnap pulled with
           | none => []
           | some s => (decodeSnap s).getD []
       let havePulled : Bool :=
         match pullRes with
         | .error _ => false
         | .ok pulled =>
           match extractSnap pulled with
           | none => false
           | some s => (decodeSnap s).isSome
       let noteIdOpt :=
         if havePulled then findNotePulled st else some ("note:" ++ docId)
       match noteIdOpt with
       | none =>
           (.error "append failed: could not locate note block under page",
            [.joinWs, .loadDoc docId])
       | some nid =>
         let u := appendTextBuild st nid paraId text
         match beh (.pushDoc docId u) with
         | .error e => (.error e, [.joinWs, .loadDoc docId, .pushDoc docId u])
         | .ok ack =>
           match ensureAckOk ack "space:push-doc-update" with
           | .error e =>
               (.error e, [.joinWs, .loadDoc docId, .pushDoc docId u])
           | .ok _ =>
               (.ok (acceptedOf ack),
                [.joinWs, .loadDoc docId, .pushDoc docId u]))

/-- `deleteDocRealtime` (src/yjs.ts lines 480–499). -/
def deleteDocRealtimeM (beh : RtBeh) (callerSupplied : Bool) (docId : String) :
    Except String Bool × List RtCall :=
  withOwnedClose callerSupplied
    (match beh .joinWs with
     | .error e => (.error e, [.joinWs])
     | .ok _ =>
       match beh (.delDoc docId) with
       | .error e => (.error e, [.joinWs, .delDoc docId])
       | .ok ack =>
         match ensureAckOk ack "space:delete-doc" with
         | .error e => (.error e, [.joinWs, .delDoc docId])
         | .ok _ => (.ok true, [.joinWs, .delDoc docId]))

/-! ### Claim C9: transport ownership -/

theorem countP_isClose_map_emit (l : List RtEmit) :
    (l.map RtCall.emit).countP isClose = 0 := by
  induction l with
  | nil => rfl
  | cons a l ih => simp [List.countP_cons, isClose, ih]

theorem withOwnedClose_close {α : Type} (cs : Bool)
    (body : Except String α × List RtEmit) :
    ((withOwnedClose cs body).2.countP isClose = if cs then 0 else 1) ∧
    (cs = false → (withOwnedClose cs body).2.getLast? = some .close) := by
  constructor
  · cases cs <;>
      simp [withOwnedClose, List.countP_append, countP_isClose_map_emit, isClose]
  · intro h
    subst h
    simp only [withOwnedClose, Bool.false_eq_true, if_neg]
    exact List.getLast?_concat _

/-- **C9.** For every behaviour of the transport (including emits that throw
and error acknowledgements), each of `createDoc`, `appendText` and
`deleteDocRealtime` never calls `close()` on a caller-supplied transport,
and calls `close()` exactly once — as the last transport action, i.e. before
returning, on success and failure alike — on a transport it constructed
itself. -/
theorem c9_transport_ownership (beh : RtBeh) (cs : Bool)
    (wsId docId paraId text : String) (title content : Option String)
    (metaBuild : String → Except String (Option Store))
    (decodeSnap : String → Option Store) :
    ((createDocM beh cs wsId docId paraId title content metaBuild).2.countP
        isClose = if cs then 0 else 1) ∧
    (cs = false →
      (createDocM beh cs wsId docId paraId title content metaBuild).2.getLast? =
        some .close) ∧
    ((appendTextM beh cs docId text paraId decodeSnap).2.countP isClose =
      if cs then 0 else 1) ∧
    (cs = false →
      (appendTextM beh cs docId text paraId decodeSnap).2.getLast? =
        some .close) ∧
    ((deleteDocRealtimeM beh cs docId).2.countP isClose =
      if cs then 0 else 1) ∧
    (cs = false →
      (deleteDocRealtimeM beh cs docId).2.getLast? = some .close) :=
  ⟨(withOwnedClose_close cs _).1, (withOwnedClose_close cs _).2,
   (withOwnedClose_close cs _).1, (withOwnedClose_close cs _).2,
   (withOwnedClose_close cs _).1, (withOwnedClose_close cs _).2⟩

/-- A concrete transport behaviour whose emits all throw. -/
def behThrow : RtBeh := fun _ => .error "socket reset"

def metaBuildNone : String → Except String (Option Store) := fun _ => .ok none

/-- Witness for C9: an operation that owns its transport (no caller-supplied
one) and whose join emit throws still closes the transport last. -/
theorem c9_transport_ownership_witness :
    (createDocM behThrow false "ws" "d1" "p1" (some "T") none
        metaBuildNone).2.getLast? = some .close ∧
    (deleteDocRealtimeM behThrow true "d1").2.countP isClose = 0 :=
  ⟨(c9_transport_ownership behThrow false "ws" "d1" "p1" "t" (some "T") none
      metaBuildNone (fun _ => none)).2.1 rfl,
   by
    have h := (c9_transport_ownership behThrow true "ws" "d1" "p1" "t"
      (some "T") none metaBuildNone (fun _ => none)).2.2.2.2.1
    simpa using h⟩

/-! ### Claim C4: acknowledgement error surfacing -/

/-- A push ack that carries an `error` field whose value is the empty string
(falsy). -/
def ackEmptyError : JVal := .jobj [("error", .jstr "")]

/-- Behaviour for the C4 counterexample: the join ack carries a truthy
`error`, the push ack carries a falsy one. -/
def behC4 : RtBeh := fun e =>
  match e with
  | .joinWs => .ok (.jobj [("error", .jstr "denied")])
  | .pushDoc _ _ => .ok ackEmptyError
  | _ => .ok (.jobj [])

/-- **C4 counterexample.** Acks that carry an `error` field do not always
make the operation reject: a push ack of `{error:""}` (field present, value
falsy) is treated as success, and the join emit's ack is never inspected at
all (here it carries `{error:"denied"}`), yet `createDoc` still returns the
doc id. -/
theorem c4_counterexample :
    jHasKey ackEmptyError "error" = true ∧
    jHasKey (.jobj [("error", .jstr "denied")]) "error" = true ∧
    (createDocM behC4 true "ws" "d1" "p1" (some "T") none metaBuildNone).1 =
      .ok "d1" :=
  ⟨rfl, rfl, rfl⟩

/-- **C4 (amended).** The acks inspected are those of the
`push-document-update` emits in `createDoc`/`appendText` and of the
`delete-document` emit (join and load acks are not inspected).  For those,
if the ack carries a truthy `error` field whose extracted text (the field
itself if a string, its `message` sub-field if an object with a string
message, else a JSON-stringified fallback) is non-empty, the operation
rejects with exactly the message `realtime <op> failed: <text>` — containing
the extracted text — and never reports `accepted=true`; an ack without such
an error (including `{}` and falsy `error` values) is success. -/
theorem c4_ack_error_surfacing (beh : RtBeh) (cs : Bool)
    (wsId docId paraId text : String) (title content : Option String)
    (metaBuild : String → Except String (Option Store))
    (decodeSnap : String → Option Store) (jv ackPush : JVal) (m pe : String) :
    (beh .joinWs = .ok jv →
      beh (.pushDoc docId (buildInitialPageUpdate title content
        ("page:" ++ docId) ("note:" ++ docId) paraId)) = .ok ackPush →
      extractRealtimeError ackPush = some m → m ≠ "" →
      (createDocM beh cs wsId docId paraId title content metaBuild).1 =
        .error ("realtime space:push-doc-update failed: " ++ m)) ∧
    (beh .joinWs = .ok jv → beh (.loadDoc docId) = .error pe →
      beh (.pushDoc docId (appendTextBuild [] ("note:" ++ docId) paraId text)) =
        .ok ackPush →
      extractRealtimeError ackPush = some m → m ≠ "" →
      (appendTextM beh cs docId text paraId decodeSnap).1 =
        .error ("realtime space:push-doc-update failed: " ++ m)) ∧
    (beh .joinWs = .ok jv → beh (.delDoc docId) = .ok ackPush →
      extractRealtimeError ackPush = some m → m ≠ "" →
      (deleteDocRealtimeM beh cs docId).1 =
        .error ("realtime space:delete-doc failed: " ++ m)) ∧
    (beh .joinWs = .ok jv →
      beh (.pushDoc docId (buildInitialPageUpdate title content
        ("page:" ++ docId) ("note:" ++ docId) paraId)) = .ok ackPush →
      extractRealtimeError ackPush = none →
      (createDocM beh cs wsId docId paraId title content metaBuild).1 =
        .ok docId) ∧
    (beh .joinWs = .ok jv → beh (.delDoc docId) = .ok ackPush →
      extractRealtimeError ackPush = none →
      (deleteDocRealtimeM beh cs docId).1 = .ok true) := by
  refine ⟨?_, ?_, ?_, ?_, ?_⟩
  · intro hj hp hx hm
    have hmb : (m == "") = false := by simpa using hm
    simp [createDocM, withOwnedClose, hj, hp, ensureAckOk, hx, hmb]
  · intro hj hl hp hx hm
    have hmb : (m == "") = false := by simpa using hm
    simp [appendTextM, withOwnedClose, hj, hl, hp, ensureAckOk, hx, hmb]
  · intro hj hd hx hm
    have hmb : (m == "") = false := by simpa using hm
    simp [deleteDocRealtimeM, withOwnedClose, hj, hd, ensureAckOk, hx, hmb]
  · intro hj hp hx
    simp [createDocM, withOwnedClose, hj, hp, ensureAckOk, hx]
  · intro hj hd hx
    simp [deleteDocRealtimeM, withOwnedClose, hj, hd, ensureAckOk, hx]

/-- Behaviour for the C4 witness: a push ack of `{error:"quota exceeded"}`. -/
def behQuota : RtBeh := fun e =>
  match e with
  | .joinWs => .ok (.jobj [])
  | .loadDoc _ => .error "pull timeout"
  | .pushDoc _ _ => .ok (.jobj [("error", .jstr "quota exceeded")])
  | .delDoc _ => .ok (.jobj [("error", .jstr "quota exceeded")])

/-- Witness for C4: the spec's concrete scenario — a push ack of
`{error:"quota exceeded"}` makes `createDoc` and `appendText` reject with a
message containing "quota exceeded" and not report acceptance. -/
theorem c4_ack_error_surfacing_witness :
    (createDocM behQuota true "ws" "d1" "p1" (some "T") none metaBuildNone).1 =
      .error ("realtime space:push-doc-update failed: " ++ "quota exceeded") ∧
    (appendTextM behQuota true "d1" "hello" "p2" (fun _ => none)).1 =
      .error ("realtime space:push-doc-update failed: " ++ "quota exceeded") ∧
    (∃ pre post, ("realtime space:push-doc-update failed: " ++ "quota exceeded") =
      pre ++ "quota exceeded" ++ post) :=
  ⟨(c4_ack_error_surfacing behQuota true "ws" "d1" "p1" "hello" (some "T") none
      metaBuildNone (fun _ => none) (.jobj [])
      (.jobj [("error", .jstr "quota exceeded")]) "quota exceeded" "x").1
      rfl rfl rfl (by decide),
   (c4_ack_error_surfacing behQuota true "ws" "d1" "p1" "hello" (some "T") none
      metaBuildNone (fun _ => none) (.jobj [])
      (.jobj [("error", .jstr "quota exceeded")]) "quota exceeded"
      "pull timeout").2.1 rfl rfl rfl rfl (by decide),
   ⟨"realtime space:push-doc-update failed: ", "", by simp⟩⟩

/-! ### Claim C5: degraded-mode append -/

/-- **C5.** When the pull of current document state fails or times out (the
load emit rejects) or returns no snapshot string, `appendText` does not
fail: it synthesizes the deterministic note id `note:<docId>`, builds the
transaction from an empty local store — inserting the stub note (flavour
`affine:note`) since it is absent, appending the new paragraph as the note's
sole child, with the paragraph carrying the given text — pushes exactly that
update, and returns the ack's acceptance. -/
theorem c5_append_degraded (beh : RtBeh) (cs : Bool)
    (docId text paraId pe : String) (decodeSnap : String → Option Store)
    (jv pv ackPush : JVal)
    (hjoin : beh .joinWs = .ok jv)
    (hpull : beh (.loadDoc docId) = .error pe ∨
      (beh (.loadDoc docId) = .ok pv ∧ extractSnap pv = none))
    (hpush : beh (.pushDoc docId
      (appendTextBuild [] ("note:" ++ docId) paraId text)) = .ok ackPush)
    (hack : extractRealtimeError ackPush = none)
    (hne : paraId ≠ "note:" ++ docId) :
    let u := appendTextBuild [] ("note:" ++ docId) paraId text
    (appendTextM beh cs docId text paraId decodeSnap).1 =
      .ok (acceptedOf ackPush) ∧
    (appendTextM beh cs docId text paraId decodeSnap).2 =
      ([RtEmit.joinWs, .loadDoc docId, .pushDoc docId u].map RtCall.emit ++
        (if cs then [] else [.close])) ∧
    (getB u ("note:" ++ docId)).map Block.flavour = some "affine:note" ∧
    (getB u ("note:" ++ docId)).map Block.children = some [paraId] ∧
    (getB u paraId).map Block.flavour = some "affine:paragraph" ∧
    (getB u paraId).map Block.text = some (some text) := by
  have hne' : "note:" ++ docId ≠ paraId := fun h => hne h.symm
  have hneb : (paraId == "note:" ++ docId) = false := by simpa using hne
  have hneb' : ("note:" ++ docId == paraId) = false := by simpa using hne'
  refine ⟨?_, ?_, ?_, ?_, ?_, ?_⟩
  · rcases hpull with hp | ⟨hp, hsnap⟩
    · simp [appendTextM, withOwnedClose, hjoin, hp, hpush, ensureAckOk, hack]
    · simp [appendTextM, withOwnedClose, hjoin, hp, hsnap, hpush, ensureAckOk,
        hack]
  · rcases hpull with hp | ⟨hp, hsnap⟩
    · simp [appendTextM, withOwnedClose, hjoin, hp, hpush, ensureAckOk, hack]
    · simp [appendTextM, withOwnedClose, hjoin, hp, hsnap, hpush, ensureAckOk,
        hack]
  · simp [appendTextBuild, setB, getB, paraBlock, stubNote, hne, hne', hneb,
      hneb', List.find?]
  · simp [appendTextBuild, setB, getB, paraBlock, stubNote, hne, hne', hneb,
      hneb', List.find?]
  · simp [appendTextBuild, setB, getB, paraBlock, stubNote, hne, hne', hneb,
      hneb', List.find?]
  · simp [appendTextBuild, setB, getB, paraBlock, stubNote, hne, hne', hneb,
      hneb', List.find?]

/-- Behaviour for the C5 witness: the pull rejects, the push is accepted. -/
def behDegraded : RtBeh := fun e =>
  match e with
  | .joinWs => .ok (.jobj [])
  | .loadDoc _ => .error "pull timeout"
  | .pushDoc _ _ => .ok (.jobj [("accepted", .jbool true), ("timestamp", .jnum 7)])
  | .delDoc _ => .ok (.jobj [])

/-- Witness for C5 at a concrete degraded append. -/
theorem c5_append_degraded_witness :
    (appendTextM behDegraded false "d9" "hi" "p7" (fun _ => none)).1 =
      .ok true ∧
    (getB (appendTextBuild [] ("note:" ++ "d9") "p7" "hi") ("note:" ++ "d9")).map
      Block.children = some ["p7"] :=
  ⟨(c5_append_degraded behDegraded false "d9" "hi" "p7" "pull timeout" (fun _ => none)
      (.jobj []) .undef (.jobj [("accepted", .jbool true), ("timestamp", .jnum 7)])
      rfl (Or.inl rfl) rfl rfl (by decide)).1,
   (c5_append_degraded behDegraded false "d9" "hi" "p7" "pull timeout" (fun _ => none)
      (.jobj []) .undef (.jobj [("accepted", .jbool true), ("timestamp", .jnum 7)])
      rfl (Or.inl rfl) rfl rfl (by decide)).2.2.2.1⟩

/-! ### Claim C8: catalog append failures are swallowed -/

/-- **C8.** Whenever the initial push is acknowledged without error,
`createDoc` returns the new doc id regardless of what happens inside the
best-effort workspace-root catalog append: the root load may throw or answer
with an error or without a snapshot, the meta construction may throw or
produce nothing, and the meta push may throw or be rejected — none of it
propagates (the behaviour `beh` on the load and meta-push emits and the
`metaBuild` step are universally quantified). -/
theorem c8_catalog_append_swallowed (beh : RtBeh) (cs : Bool)
    (wsId docId paraId : String) (title content : Option String)
    (metaBuild : String → Except String (Option Store)) (jv ackPush : JVal)
    (hjoin : beh .joinWs = .ok jv)
    (hpush : beh (.pushDoc docId (buildInitialPageUpdate title content
      ("page:" ++ docId) ("note:" ++ docId) paraId)) = .ok ackPush)
    (hack : extractRealtimeError ackPush = none) :
    (createDocM beh cs wsId docId paraId title content metaBuild).1 =
      .ok docId := by
  simp [createDocM, withOwnedClose, hjoin, hpush, ensureAckOk, hack]

/-- Behaviour for the C8 witness: the workspace-root load (the only emit on
the catalog path reached here) throws. -/
def behMetaFail : RtBeh := fun e =>
  match e with
  | .joinWs => .ok (.jobj [])
  | .loadDoc _ => .error "catalog unavailable"
  | .pushDoc _ _ => .ok (.jobj [("accepted", .jbool true)])
  | .delDoc _ => .ok (.jobj [])

/-- Witness for C8: the catalog load throws, yet `createDoc` returns the doc
id. -/
theorem c8_catalog_append_swallowed_witness :
    (createDocM behMetaFail false "ws" "d1" "p1" (some "T") (some "body")
        (fun _ => .error "decode boom")).1 = .ok "d1" :=
  c8_catalog_append_swallowed behMetaFail false "ws" "d1" "p1" (some "T")
    (some "body") (fun _ => .error "decode boom") (.jobj [])
    (.jobj [("accepted", .jbool true)]) rfl rfl rfl

/-! ## Keyword search resolver (src/search.ts)

The resolver's external collaborators — GraphQL `searchDocsByKeyword`, MCP
`toolsList` (only tool *names* are inspected) and `keywordSearch`, the doc
listings and `readDocument` — are supplied as a record of behaviours
(`Except Unit _`; the thrown value is never inspected).  The run returns the
result together with a trace of which collaborators were invoked, in
order. -/

/-- A GraphQL search hit (the fields the resolver copies). -/
structure GqlDoc where
  docId : String
  title : Option String := none
  highlight : Option String := none
  createdAt : Option String := none
  updatedAt : Option String := none
deriving DecidableEq, Repr

/-- A `KeywordSearchItem` (plus the `id` key MCP items may carry instead of
`docId`). -/
structure SearchItem where
  docId : Option String := none
  id : Option String := none
  title : Option String := none
  highlight : Option String := none
  snippet : Option String := none
  createdAt : Option String := none
  updatedAt : Option String := none
deriving DecidableEq, Repr

/-- One node of a docs connection (`edge.node`; cursors are not inspected). -/
structure Node where
  id : String
  title : Option String := none
deriving DecidableEq, Repr

structure KeywordSearchResult where
  query : String
  source : String
  items : List SearchItem
deriving DecidableEq, Repr

/-- Behaviours of the resolver's external collaborators. -/
structure SearchDeps where
  searchDocsByKeyword : Except Unit (List GqlDoc)
  toolsList : Except Unit (List String)
  keywordSearchTool : Except Unit (List SearchItem)
  listRecentlyUpdatedDocs : Except Unit (List Node)
  listDocs : Except Unit (List Node)
  readDocument : String → Except Unit String

/-- Which collaborator a trace entry records. -/
inductive CallTag where
  | gqlSearch
  | tools
  | kwTool
  | listRecent
  | listAll
  | readDoc (docId : String)
deriving DecidableEq, Repr

/-- The tier-1 item mapping (src/search.ts lines 40–46). -/
def gqlToItem (d : GqlDoc) : SearchItem :=
  { docId := some d.docId, title := d.title, highlight := d.highlight
    createdAt := d.createdAt, updatedAt := d.updatedAt }

/-- Tiers 1–2 (lines 37–59): GraphQL first; the MCP `keyword_search` tool is
attempted only inside the `catch` of the GraphQL tier, and failures there
are swallowed. -/
def tier12 (deps : SearchDeps) : (String × List SearchItem) × List CallTag :=
  match deps.searchDocsByKeyword with
  | .ok gql => (("graphql", gql.map gqlToItem), [.gqlSearch])
  | .error _ =>
    match deps.toolsList with
    | .error _ => (("fallback", []), [.gqlSearch, .tools])
    | .ok ts =>
      if ts.contains "keyword_search" then
        match deps.keywordSearchTool with
        | .ok its => (("mcp", its), [.gqlSearch, .tools, .kwTool])
        | .error _ => (("fallback", []), [.gqlSearch, .tools, .kwTool])
      else (("fallback", []), [.gqlSearch, .tools])

/-- Case-insensitive title filter of tier 3 (lines 71–75). -/
def titleMatches (query : String) (nodes : List Node) : List SearchItem :=
  (nodes.filter (fun n =>
    strIncludes (strToLower (n.title.getD "")) (strToLower query))).map
    (fun n => { docId := some n.id, title := n.title })

/-- The tier-3 docs listing (lines 62–70): `listRecentlyUpdatedDocs`, falling
back to `listDocs` on older servers; if both throw, the exception
propagates. -/
def fallbackTitles (deps : SearchDeps) (query : String) :
    Except Unit (List Node × List SearchItem) × List CallTag :=
  match deps.listRecentlyUpdatedDocs with
  | .ok c => (.ok (c, titleMatches query c), [.listRecent])
  | .error _ =>
    match deps.listDocs with
    | .ok c => (.ok (c, titleMatches query c), [.listRecent, .listAll])
    | .error _ => (.error (), [.listRecent, .listAll])

/-- `/\s+/g → ' '` (the flag tracks whether the previous character was
whitespace). -/
def collapseWsAux : Bool → List Char → List Char
  | _, [] => []
  | prevWs, c :: rest =>
      if c.isWhitespace then
        if prevWs then collapseWsAux true rest
        else ' ' :: collapseWsAux true rest
      else c :: collapseWsAux false rest

def collapseWs (cs : List Char) : List Char :=
  collapseWsAux false cs

/-- The `{docId, title, snippet}` match of the content scan (lines 110–119):
a ±40-character window around the hit, whitespace-collapsed and trimmed. -/
def scanItem (node : Node) (text : String) (idx : Nat) (q : String) :
    SearchItem :=
  let start := idx - 40
  let stop := Nat.min text.data.length (idx + q.length + 40)
  let snippet :=
    String.mk (trimChars (collapseWs ((text.data.drop start).take (stop - start))))
  { docId := some node.id, title := node.title, snippet := some snippet }

/-- `matches.length >= remaining` (`none` is the unbounded case). -/
def stopAfter (c : Nat) : Option Nat → Bool
  | none => false
  | some r => r ≤ c

/-- The per-document scan loop (lines 102–125): skip already-seen ids,
swallow per-document read failures, record a match per hit and stop when the
remaining budget is filled.  `cnt` counts matches found so far. -/
def scanLoop (rd : String → Except Unit String) (q : String)
    (seen : List String) (remaining : Option Nat) :
    Nat → List Node → List SearchItem × List CallTag
  | _, [] => ([], [])
  | cnt, node :: rest =>
      if seen.contains node.id then scanLoop rd q seen remaining cnt rest
      else
        match rd node.id with
        | .error _ =>
            ((scanLoop rd q seen remaining cnt rest).1,
             .readDoc node.id :: (scanLoop rd q seen remaining cnt rest).2)
        | .ok md =>
            match strIndexOf (strToLower md) q with
            | none =>
                ((scanLoop rd q seen remaining cnt rest).1,
                 .readDoc node.id :: (scanLoop rd q seen remaining cnt rest).2)
            | some idx =>
                let item := scanItem node md idx q
                if stopAfter (cnt + 1) remaining then
                  ([item], [.readDoc node.id])
                else
                  (item :: (scanLoop rd q seen remaining (cnt + 1) rest).1,
                   .readDoc node.id :: (scanLoop rd q seen remaining (cnt + 1) rest).2)

/-- The scan over a concrete connection (lines 93–131): seed the seen-set
from the pre-scan items (`it?.docId ?? it?.id`, truthy ids only), run the
loop, then merge matches and adjust the reported source. -/
def scanWith (deps : SearchDeps) (query : String) (maxItems : Option Nat)
    (source : String) (items : List SearchItem) (c : List Node)
    (pre : List CallTag) : (String × List SearchItem) × List CallTag :=
  let q := strToLower query
  let seen := (items.filterMap (fun it =>
    match it.docId with
    | some d => some d
    | none => it.id)).filter (fun s => !(s == ""))
  let remaining :=
    match maxItems with
    | some mn => some (mn - items.length)
    | none => none
  let ms := (scanLoop deps.readDocument q seen remaining 0 c).1
  let tr := (scanLoop deps.readDocument q seen remaining 0 c).2
  let items2 :=
    if ms.isEmpty then items
    else if items.length == 0 then ms else items ++ ms
  let source2 :=
    if !ms.isEmpty && items.length == 0 && !(source == "mcp") then "fallback"
    else source
  ((source2, items2), pre ++ tr)

/-- The supplementary/last-resort content scan (lines 79–136): run when the
accumulated items are empty or tier 1 succeeded, and the requested limit (if
any) is not yet met; requires a `read_document` tool; the whole block is
wrapped in a swallowing `try`. -/
def contentScan (deps : SearchDeps) (query : String) (first : Option Nat)
    (source : String) (items : List SearchItem) (docsConn : Option (List Node)) :
    (String × List SearchItem) × List CallTag :=
  let maxItems :=
    match first with
    | some n => if 0 < n then some n else none
    | none => none
  let shouldScan := (items.isEmpty || source == "graphql") &&
    (match maxItems with
     | none => true
     | some n => decide (items.length < n))
  if shouldScan then
    match deps.toolsList with
    | .error _ => ((source, items), [.tools])
    | .ok ts =>
      if ts.contains "read_document" then
        match docsConn with
        | some c => scanWith deps query maxItems source items c [.tools]
        | none =>
          match deps.listRecentlyUpdatedDocs with
          | .ok c => scanWith deps query maxItems source items c [.tools, .listRecent]
          | .error _ => ((source, items), [.tools, .listRecent])
      else ((source, items), [.tools])
  else ((source, items), [])

/-- `keywordSearchWithFallback` (src/search.ts lines 27–139). -/
def keywordSearchWithFallback (deps : SearchDeps) (query : String)
    (first : Option Nat) : Except Unit KeywordSearchResult × List CallTag :=
  let t12 := tier12 deps
  if t12.1.2.isEmpty then
    match fallbackTitles deps query with
    | (.error _, tr2) => (.error (), t12.2 ++ tr2)
    | (.ok (c, fbItems), tr2) =>
      let cs := contentScan deps query first "fallback" fbItems (some c)
      (.ok { query := query, source := cs.1.1, items := cs.1.2 },
       t12.2 ++ tr2 ++ cs.2)
  else
    let cs := contentScan deps query first t12.1.1 t12.1.2 none
    (.ok { query := query, source := cs.1.1, items := cs.1.2 }, t12.2 ++ cs.2)

/-! ### Claim C2: search tier cascade -/

theorem kwTool_not_in_scanLoop (rd : String → Except Unit String) (q : String)
    (seen : List String) (remaining : Option Nat) :
    ∀ (nodes : List Node) (cnt : Nat),
      CallTag.kwTool ∉ (scanLoop rd q seen remaining cnt nodes).2 := by
  intro nodes
  induction nodes with
  | nil => intro cnt; simp [scanLoop]
  | cons node rest ih =>
      intro cnt
      by_cases hseen : seen.contains node.id = true
      · simp only [scanLoop, hseen, if_true]
        exact ih cnt
      · have hseen' : ¬ node.id ∈ seen := by simpa using hseen
        cases hrd : rd node.id with
        | error e => simp [scanLoop, hseen', hrd, ih cnt]
        | ok md =>
            cases hix : strIndexOf (strToLower md) q with
            | none => simp [scanLoop, hseen', hrd, hix, ih cnt]
            | some idx =>
                by_cases hstop : stopAfter (cnt + 1) remaining = true
                · simp [scanLoop, hseen', hrd, hix, hstop]
                · simp [scanLoop, hseen', hrd, hix, hstop, ih (cnt + 1)]

theorem kwTool_not_in_scanWith (deps : SearchDeps) (query : String)
    (maxItems : Option Nat) (source : String) (items : List SearchItem)
    (c : List Node) (pre : List CallTag) (hpre : CallTag.kwTool ∉ pre) :
    CallTag.kwTool ∉ (scanWith deps query maxItems source items c pre).2 := by
  unfold scanWith
  intro hmem
  rcases List.mem_append.mp hmem with h | h
  · exact hpre h
  · exact kwTool_not_in_scanLoop _ _ _ _ _ _ h

theorem scanWith_source (deps : SearchDeps) (query : String)
    (maxItems : Option Nat) (source : String) (items : List SearchItem)
    (c : List Node) (pre : List CallTag) :
    (scanWith deps query maxItems source items c pre).1.1 = source ∨
    (scanWith deps query maxItems source items c pre).1.1 = "fallback" := by
  unfold scanWith
  dsimp only
  split
  · right; rfl
  · left; rfl

theorem kwTool_not_in_contentScan (deps : SearchDeps) (query : String)
    (first : Option Nat) (source : String) (items : List SearchItem)
    (dc : Option (List Node)) :
    CallTag.kwTool ∉ (contentScan deps query first source items dc).2 := by
  unfold contentScan
  dsimp only
  split
  · split
    · simp
    · split
      · split
        · exact kwTool_not_in_scanWith _ _ _ _ _ _ _ (by simp)
        · split
          · exact kwTool_not_in_scanWith _ _ _ _ _ _ _ (by simp)
          · simp
      · simp
  · simp

theorem contentScan_source (deps : SearchDeps) (query : String)
    (first : Option Nat) (source : String) (items : List SearchItem)
    (dc : Option (List Node)) :
    (contentScan deps query first source items dc).1.1 = source ∨
    (contentScan deps query first source items dc).1.1 = "fallback" := by
  unfold contentScan
  dsimp only
  split
  · split
    · left; rfl
    · split
      · split
        · exact scanWith_source _ _ _ _ _ _ _
        · split
          · exact scanWith_source _ _ _ _ _ _ _
          · left; rfl
      · left; rfl
  · left; rfl

/-- When the accumulated items are non-empty and the source is not
`graphql`, the supplementary scan does not run. -/
theorem contentScan_skip (deps : SearchDeps) (query : String)
    (first : Option Nat) (source : String) (items : List SearchItem)
    (dc : Option (List Node)) (hne : items.isEmpty = false)
    (hsrc : (source == "graphql") = false) :
    contentScan deps query first source items dc = ((source, items), []) := by
  unfold contentScan
  have hcond : (items.isEmpty || source == "graphql") = false := by
    simp [hne, hsrc]
  simp [hcond]

/-- Deps for the C2 counterexample: indexed search returns empty *without
throwing*; a `keyword_search` tool is listed and would return one item; the
recent-docs listing is empty. -/
def depsC2 : SearchDeps :=
  { searchDocsByKeyword := .ok []
    toolsList := .ok ["keyword_search"]
    keywordSearchTool :=
      .ok [{ docId := some "m1", title := some "From MCP", snippet := some "snippet" }]
    listRecentlyUpdatedDocs := .ok []
    listDocs := .ok []
    readDocument := fun _ => .ok "" }

/-- **C2 counterexample.** The indexed search returns an empty result
without throwing and a `keyword_search` tool is available, yet the resolver
never invokes that tool (no `kwTool` entry in the trace) and reports source
`fallback` with no items — not source `mcp` with the tool's result.  Tier 2
lives inside the `catch` of tier 1 and is unreachable on empty success. -/
theorem c2_counterexample :
    depsC2.searchDocsByKeyword = .ok [] ∧
    depsC2.toolsList = .ok ["keyword_search"] ∧
    depsC2.keywordSearchTool =
      .ok [{ docId := some "m1", title := some "From MCP", snippet := some "snippet" }] ∧
    keywordSearchWithFallback depsC2 "doc" none =
      (.ok { query := "doc", source := "fallback", items := [] },
       [.gqlSearch, .listRecent, .tools]) :=
  ⟨rfl, rfl, rfl, rfl⟩

/-- **C2 (amended).** The tool tier runs only when the indexed (GraphQL)
search *throws*: in that case the resolver lists the available tools and, if
a tool named `keyword_search` is present and the call succeeds with a
non-empty result, reports exactly that result with source `mcp`.  When the
indexed search returns (empty or not) without throwing, the resolver never
calls the `keyword_search` tool and never reports source `mcp`; an empty
successful indexed result proceeds directly to the title-scan fallback
(the recently-updated-docs listing is consulted). -/
theorem c2_search_tier_cascade (deps : SearchDeps) (query : String)
    (first : Option Nat) :
    (∀ (ts : List String) (its : List SearchItem),
      deps.searchDocsByKeyword = .error () → deps.toolsList = .ok ts →
      ts.contains "keyword_search" = true → deps.keywordSearchTool = .ok its →
      its ≠ [] →
      keywordSearchWithFallback deps query first =
        (.ok { query := query, source := "mcp", items := its },
         [.gqlSearch, .tools, .kwTool])) ∧
    (∀ gql : List GqlDoc, deps.searchDocsByKeyword = .ok gql →
      CallTag.kwTool ∉ (keywordSearchWithFallback deps query first).2 ∧
      (∀ r, (keywordSearchWithFallback deps query first).1 = .ok r →
        r.source ≠ "mcp") ∧
      (gql = [] →
        CallTag.listRecent ∈ (keywordSearchWithFallback deps query first).2)) := by
  constructor
  · intro ts its h1 h2 h3 h4 h5
    have hne : its.isEmpty = false := by
      cases its with
      | nil => exact absurd rfl h5
      | cons a l => rfl
    have h3' : "keyword_search" ∈ ts := by simpa using h3
    have ht12 : tier12 deps = (("mcp", its), [.gqlSearch, .tools, .kwTool]) := by
      simp [tier12, h1, h2, h3', h4]
    have hskip := contentScan_skip deps query first "mcp" its none hne (by decide)
    simp [keywordSearchWithFallback, ht12, hne, hskip]
  · intro gql hok
    have ht12 : tier12 deps =
        (("graphql", gql.map gqlToItem), [.gqlSearch]) := by
      simp [tier12, hok]
    by_cases hemp : (gql.map gqlToItem).isEmpty = true
    · -- empty tier-1 result: title fallback runs
      cases hlr : deps.listRecentlyUpdatedDocs with
      | ok c =>
          have hfb : fallbackTitles deps query =
              (.ok (c, titleMatches query c), [.listRecent]) := by
            simp [fallbackTitles, hlr]
          refine ⟨?_, ?_, ?_⟩
          · intro hmem
            simp only [keywordSearchWithFallback, ht12, hemp, if_true, hfb,
              List.mem_append] at hmem
            rcases hmem with (h | h) | h
            · simp at h
            · simp at h
            · exact kwTool_not_in_contentScan _ _ _ _ _ _ h
          · intro r hr
            simp only [keywordSearchWithFallback, ht12, hemp, if_true, hfb] at hr
            have := contentScan_source deps query first "fallback"
              (titleMatches query c) (some c)
            rcases this with hs | hs <;>
              (injection hr with hval; rw [← hval]; simp [hs])
          · intro _
            simp [keywordSearchWithFallback, ht12, hemp, hfb]
      | error e =>
          cases hld : deps.listDocs with
          | ok c =>
              have hfb : fallbackTitles deps query =
                  (.ok (c, titleMatches query c), [.listRecent, .listAll]) := by
                simp [fallbackTitles, hlr, hld]
              refine ⟨?_, ?_, ?_⟩
              · intro hmem
                simp only [keywordSearchWithFallback, ht12, hemp, if_true, hfb,
                  List.mem_append] at hmem
                rcases hmem with (h | h) | h
                · simp at h
                · simp at h
                · exact kwTool_not_in_contentScan _ _ _ _ _ _ h
              · intro r hr
                simp only [keywordSearchWithFallback, ht12, hemp, if_true,
                  hfb] at hr
                have := contentScan_source deps query first "fallback"
                  (titleMatches query c) (some c)
                rcases this with hs | hs <;>
                  (injection hr with hval; rw [← hval]; simp [hs])
              · intro _
                simp [keywordSearchWithFallback, ht12, hemp, hfb]
          | error e2 =>
              have hfb : fallbackTitles deps query =
                  (.error (), [.listRecent, .listAll]) := by
                simp [fallbackTitles, hlr, hld]
              refine ⟨?_, ?_, ?_⟩
              · intro hmem
                simp only [keywordSearchWithFallback, ht12, hemp, if_true, hfb,
                  List.mem_append] at hmem
                rcases hmem with h | h <;> simp at h
              · intro r hr
                simp only [keywordSearchWithFallback, ht12, hemp, if_true,
                  hfb] at hr
                exact absurd hr (by simp)
              · intro _
                simp [keywordSearchWithFallback, ht12, hemp, hfb]
    · -- non-empty tier-1 result: no fallback listing, maybe supplementary scan
      have hemp' : (gql.map gqlToItem).isEmpty = false := by
        cases h : (gql.map gqlToItem).isEmpty
        · rfl
        · exact absurd h hemp
      refine ⟨?_, ?_, ?_⟩
      · intro hmem
        simp only [keywordSearchWithFallback, ht12, hemp', Bool.false_eq_true,
          if_false, if_neg, List.mem_append] at hmem
        rcases hmem with h | h
        · simp at h
        · exact kwTool_not_in_contentScan _ _ _ _ _ _ h
      · intro r hr
        simp only [keywordSearchWithFallback, ht12, hemp', Bool.false_eq_true,
          if_false, if_neg] at hr
        have := contentScan_source deps query first "graphql"
          (gql.map gqlToItem) none
        rcases this with hs | hs <;>
          (injection hr with hval; rw [← hval]; simp [hs])
      · intro hnil
        subst hnil
        simp at hemp'

/-- Deps for the C2 witness: the spec's concrete tier-2 scenario (indexed
search throws; `keyword_search` listed; tool returns one item). -/
def depsMcp : SearchDeps :=
  { searchDocsByKeyword := .error ()
    toolsList := .ok ["other", "keyword_search"]
    keywordSearchTool :=
      .ok [{ docId := some "m1", title := some "From MCP", snippet := some "snippet" }]
    listRecentlyUpdatedDocs := .error ()
    listDocs := .error ()
    readDocument := fun _ => .error () }

/-- Witness for C2 (amended): the resolver reports source `mcp` with exactly
the tool's item, and the recently-updated-docs listing is never consulted
(trace is exactly search, tools, tool call). -/
theorem c2_search_tier_cascade_witness :
    keywordSearchWithFallback depsMcp "query" none =
      (.ok { query := "query", source := "mcp",
             items := [{ docId := some "m1", title := some "From MCP",
                         snippet := some "snippet" }] },
       [.gqlSearch, .tools, .kwTool]) :=
  (c2_search_tier_cascade depsMcp "query" none).1 ["other", "keyword_search"]
    [{ docId := some "m1", title := some "From MCP", snippet := some "snippet" }]
    rfl rfl (by decide) rfl (by decide)

end Affine
